import Mathlib

/-!
Verification of the chessGPT turn-orchestration core (src/main.py, src/chessGPT.py).

The chess rules engine (python-chess) and the OpenAI transport are external
collaborators; they are modelled by the abstract interface `RulesEngine` and by
reply oracles.  Everything else (the SAN extraction pattern, the reply
post-processing, the retry loops of the negotiators, the game loop and its
outcome reporting, the argparse `--tries` handling) is translated directly from
the Python source.
-/

namespace ChessGPT

/-- The two chess sides (`chess.WHITE` / `chess.BLACK`). -/
inductive Color where
  | white
  | black
deriving DecidableEq, Repr

/-- Toggling the side to move, as `python-chess` does on every `Board.push`
(including a push of the null move). -/
def Color.flip : Color → Color
  | .white => .black
  | .black => .white

/-- `chess.Move`: a from-square, a to-square and an optional promotion piece.
Only its identity matters to the orchestration code. -/
structure Move where
  from_square : Nat
  to_square : Nat
  promotion : Option Nat := none
deriving DecidableEq, Repr

/-- `chess.Move.null()`, the sentinel returned by the AI negotiator when every
try failed (`Move(0, 0)` in python-chess). -/
def Move.null : Move := ⟨0, 0, none⟩

/-- Classified result of `board.parse_san(token)`: either a resolved move or
one of the three python-chess exceptions (all subclasses of `ValueError`). -/
inductive ParseResult where
  | ok (m : Move)
  | invalidMove
  | illegalMove
  | ambiguousMove
deriving DecidableEq, Repr

/-- The external rules-engine capability consumed by the orchestration code
(python-chess `Board` methods), over an abstract position type `Pos`. -/
structure RulesEngine (Pos : Type) where
  turn : Pos → Color
  parse_san : Pos → String → ParseResult
  push_pos : Pos → Move → Pos
  is_game_over : Pos → Bool
  winner : Pos → Option Color
  is_legal : Pos → Move → Bool

/-- A python-chess `Board` as used by the source: the engine position plus the
move stack that `Board.push` appends to. -/
structure Board (Pos : Type) where
  pos : Pos
  move_stack : List Move
deriving DecidableEq, Repr

/-- `board.push(move)`: applies the move to the position (by the engine) and
appends it to the move stack. -/
def Board.push {Pos : Type} (e : RulesEngine Pos) (b : Board Pos) (m : Move) :
    Board Pos :=
  ⟨e.push_pos b.pos m, b.move_stack ++ [m]⟩

/-! ## The SAN extraction pattern (src/chessGPT.py line 7)

`SAN_PATTERN` is
`([Oo0](-[Oo0]){1,2}|[KQRBN]?[a-h]?[1-8]?x?[a-h][1-8](\=[QRBN])?[+#]?(\s(1-0|0-1|1\/2-1\/2))?)`.
We implement Python `re` semantics for this concrete pattern: leftmost match,
first alternative preferred, greedy optionals with backtracking. -/

def isCastleChar (c : Char) : Bool := c = 'O' || c = 'o' || c = '0'

def isPieceChar (c : Char) : Bool := c = 'K' || c = 'Q' || c = 'R' || c = 'B' || c = 'N'

def isFileChar (c : Char) : Bool := 'a' ≤ c && c ≤ 'h'

def isRankChar (c : Char) : Bool := '1' ≤ c && c ≤ '8'

def isPromoChar (c : Char) : Bool := c = 'Q' || c = 'R' || c = 'B' || c = 'N'

def isCheckChar (c : Char) : Bool := c = '+' || c = '#'

/-- Python `\s` on the characters that can occur here (ASCII whitespace plus
the Unicode whitespace Python's `re` accepts). -/
def isSpaceRe (c : Char) : Bool :=
  c = ' ' || c = '\t' || c = '\n' || c = '\r' ||
  c.toNat = 0x0b || c.toNat = 0x0c ||
  (0x1c ≤ c.toNat && c.toNat ≤ 0x1f) ||
  c.toNat = 0x85 || c.toNat = 0xa0 || c.toNat = 0x1680 ||
  (0x2000 ≤ c.toNat && c.toNat ≤ 0x200a) ||
  c.toNat = 0x2028 || c.toNat = 0x2029 ||
  c.toNat = 0x202f || c.toNat = 0x205f || c.toNat = 0x3000

/-- A matcher consumes a suffix of the subject and reports how many characters
the rest of the pattern consumed, or `none` on failure. -/
abbrev Matcher := List Char → Option Nat

/-- Greedy optional single character (`X?` in the pattern): try consuming
first, backtrack to not consuming if the continuation fails. -/
def optC (p : Char → Bool) (k : Matcher) : Matcher := fun cs =>
  match cs with
  | [] => k []
  | c :: rest =>
    if p c then
      match k rest with
      | some n => some (n + 1)
      | none => k (c :: rest)
    else k (c :: rest)

/-- Mandatory single character in the pattern. -/
def reqC (p : Char → Bool) (k : Matcher) : Matcher := fun cs =>
  match cs with
  | [] => none
  | c :: rest => if p c then (k rest).map (fun n => n + 1) else none

/-- The optional promotion group `(\=[QRBN])?`, greedy with backtracking. -/
def optPromo (k : Matcher) : Matcher := fun cs =>
  match cs with
  | '=' :: c :: rest =>
    if isPromoChar c then
      match k rest with
      | some n => some (n + 2)
      | none => k cs
    else k cs
  | _ => k cs

/-- The trailing optional group `(\s(1-0|0-1|1\/2-1\/2))?`.  Nothing follows
it in the pattern, so greedy success is final; when the group fails it
contributes zero characters. -/
def annotTail : Matcher := fun cs =>
  match cs with
  | c :: rest =>
    if isSpaceRe c then
      if rest.take 3 = ['1', '-', '0'] then some 4
      else if rest.take 3 = ['0', '-', '1'] then some 4
      else if rest.take 7 = ['1', '/', '2', '-', '1', '/', '2'] then some 8
      else some 0
    else some 0
  | [] => some 0

/-- First alternative `[Oo0](-[Oo0]){1,2}`: castling, greedy repetition. -/
def castleLen (cs : List Char) : Option Nat :=
  match cs with
  | a :: '-' :: b :: rest =>
    if isCastleChar a && isCastleChar b then
      match rest with
      | '-' :: c :: _ => if isCastleChar c then some 5 else some 3
      | _ => some 3
    else none
  | _ => none

/-- Second alternative
`[KQRBN]?[a-h]?[1-8]?x?[a-h][1-8](\=[QRBN])?[+#]?(\s(...))?`. -/
def ordinaryMove : Matcher :=
  optC isPieceChar (optC isFileChar (optC isRankChar (optC (fun c => c = 'x')
    (reqC isFileChar (reqC isRankChar
      (optPromo (optC isCheckChar annotTail)))))))

/-- Length of the `SAN_PATTERN` match starting exactly at the head of `cs`
(Python alternation: the castling alternative is tried first). -/
def sanMatchLen (cs : List Char) : Option Nat :=
  match castleLen cs with
  | some n => some n
  | none => ordinaryMove cs

/-- Leftmost `SAN_PATTERN` match: scan start positions left to right and
return the matched substring (what `match.group()` would be). -/
def sanFirstMatchAux : List Char → Option String
  | [] => none
  | c :: rest =>
    match sanMatchLen (c :: rest) with
    | some n => some (String.mk ((c :: rest).take n))
    | none => sanFirstMatchAux rest

/-- The matched substring of the first `SAN_PATTERN` match in `s`, if any. -/
def sanFirstMatch (s : String) : Option String :=
  sanFirstMatchAux s.toList

/-- src/chessGPT.py line 100: `next(re.finditer(SAN_PATTERN, reply)).string`.
When no match exists `next` raises `StopIteration` (`none` here); when a match
exists, `Match.string` is the ENTIRE subject string, not the matched text, so
the whole reply is returned. -/
def extractToken (reply : String) : Option String :=
  match sanFirstMatch reply with
  | none => none
  | some _ => some reply

/-! ## Reply post-processing (src/main.py lines 74-78)

`send_ai_prompt` splits the model reply into lines, takes the first line as
the SAN candidate and joins the non-blank remaining lines as the explanation.
`str.splitlines` is embedded with Python's line-boundary set. -/

/-- A Python `str.splitlines` line boundary (other than the two-character
`\r\n`, handled separately). -/
def isLineBoundaryChar (c : Char) : Bool :=
  c = '\n' || c = '\r' ||
  c.toNat = 0x0b || c.toNat = 0x0c ||
  c.toNat = 0x1c || c.toNat = 0x1d || c.toNat = 0x1e ||
  c.toNat = 0x85 || c.toNat = 0x2028 || c.toNat = 0x2029

/-- Worker for `splitlines`; `acc` holds the current line reversed. -/
def splitlinesAux : List Char → List Char → List String
  | [], acc =>
    match acc with
    | [] => []
    | _ => [String.mk acc.reverse]
  | '\r' :: '\n' :: cs, acc => String.mk acc.reverse :: splitlinesAux cs []
  | c :: cs, acc =>
    if isLineBoundaryChar c then String.mk acc.reverse :: splitlinesAux cs []
    else splitlinesAux cs (c :: acc)

/-- Python `reply.splitlines()`. -/
def splitlines (s : String) : List String := splitlinesAux s.toList []

/-- The pure part of `send_ai_prompt` (src/main.py lines 75-78): on reply
text, `lines[0]` is the SAN candidate and the joined non-blank tail is the
explanation.  `none` models the `IndexError` that `lines[0]` raises when the
reply has no lines (empty reply). -/
def processReply (reply : String) : Option (String × String) :=
  match splitlines reply with
  | [] => none
  | first :: rest =>
    some (first, String.intercalate "\n" (rest.filter (fun l => l != "")))

/-! ## The AI turn negotiator (src/main.py `get_ai_move`, lines 81-93)

The OpenAI transport is modelled as an oracle `replies : Nat → TransportReply`
consumed at an index that counts the calls made so far; each Python call site
threads the board through explicitly so that frame properties are statable. -/

/-- One transport call: either the reply text, or an exception raised by the
OpenAI API call (network or authentication failure). -/
inductive TransportReply where
  | ok (text : String)
  | err
deriving DecidableEq, Repr

/-- How `get_ai_move` leaves one loop iteration, given the transport reply:
success, a caught `ValueError`/`StopIteration` (retry), or one of the two
uncaught exceptions. -/
inductive AttemptClass where
  | success (m : Move) (explanation : String)
  | failRetry
  | fatalTransport
  | fatalIndex
deriving DecidableEq, Repr

/-- Classification of one iteration of the `get_ai_move` retry loop: the
transport call, then `send_ai_prompt` post-processing, then
`board.parse_san`.  All three `parse_san` failures are subclasses of
`ValueError` and hence caught (`failRetry`). -/
def classify {Pos : Type} (e : RulesEngine Pos) (p : Pos) :
    TransportReply → AttemptClass
  | .err => .fatalTransport
  | .ok reply =>
    match processReply reply with
    | none => .fatalIndex
    | some (san, expl) =>
      match e.parse_san p san with
      | .ok m => .success m expl
      | _ => .failRetry

/-- Result of `get_ai_move`: a normal return (a resolved move, or the
`Move.null()` sentinel with the failure message), or an uncaught exception. -/
inductive AIResult where
  | returned (m : Move) (explanation : String)
  | transportRaised
  | indexRaised
deriving DecidableEq, Repr

/-- The retry loop of `get_ai_move` (src/main.py lines 84-93).  Returns the
board (threaded, never pushed here), the result, and the next transport
index. -/
def get_ai_move_go {Pos : Type} (e : RulesEngine Pos)
    (replies : Nat → TransportReply) :
    Nat → Board Pos → Nat → Board Pos × AIResult × Nat
  | 0, b, idx => (b, .returned Move.null "AI did not make a valid move.", idx)
  | k + 1, b, idx =>
    match classify e b.pos (replies idx) with
    | .fatalTransport => (b, .transportRaised, idx + 1)
    | .fatalIndex => (b, .indexRaised, idx + 1)
    | .success m expl => (b, .returned m expl, idx + 1)
    | .failRetry => get_ai_move_go e replies k b (idx + 1)

/-- src/main.py `get_ai_move(board, max_tries)`. -/
def get_ai_move {Pos : Type} (e : RulesEngine Pos) (b : Board Pos)
    (max_tries : Nat) (replies : Nat → TransportReply) (idx : Nat) :
    Board Pos × AIResult × Nat :=
  get_ai_move_go e replies max_tries b idx

/-! ## The `--tries` flag (src/main.py lines 121-127, 141)

`add_argument("-t", "--tries", default=1, ...)` configures no `type=`
converter, so a value supplied on the command line is stored as the raw
string while the built-in default stays the Python int `1`.  `range(str)`
raises `TypeError` before the loop body runs. -/

/-- The dynamic type of `args.tries`. -/
inductive TriesArg where
  | int (n : Nat)
  | str (s : String)
deriving DecidableEq, Repr

/-- argparse handling of `--tries`: absent → the int default `1`; supplied →
the raw command-line string. -/
def parseTriesArg : Option String → TriesArg
  | none => .int 1
  | some s => .str s

/-- A Python evaluation that may raise `TypeError`. -/
inductive DynResult (α : Type) where
  | ok (a : α)
  | typeErr
deriving DecidableEq, Repr

/-- `get_ai_move` as called from `main` with the dynamic `args.tries` value:
`for _ in range(max_tries)` evaluates `range` first, so a string raises
`TypeError` before any transport call. -/
def get_ai_move_dyn {Pos : Type} (e : RulesEngine Pos) (b : Board Pos)
    (tries : TriesArg) (replies : Nat → TransportReply) (idx : Nat) :
    DynResult (Board Pos × AIResult × Nat) :=
  match tries with
  | .int n => .ok (get_ai_move e b n replies idx)
  | .str _ => .typeErr

/-! ## The completion negotiator (src/chessGPT.py `get_completion_move`,
lines 94-109), which is where `SAN_PATTERN` is used. -/

/-- The retry loop of `get_completion_move`: extract a token with
`SAN_PATTERN` (via `Match.string`), then `board.parse_san`.  `StopIteration`
(no match) and `ValueError` (parse failures) are caught and retried; on
exhaustion `Move.null()` is returned (after printing the failure message). -/
def get_completion_move_go {Pos : Type} (e : RulesEngine Pos)
    (replies : Nat → String) :
    Nat → Board Pos → Nat → Board Pos × Move × Nat
  | 0, b, idx => (b, Move.null, idx)
  | k + 1, b, idx =>
    match extractToken (replies idx) with
    | none => get_completion_move_go e replies k b (idx + 1)
    | some san =>
      match e.parse_san b.pos san with
      | .ok m => (b, m, idx + 1)
      | _ => get_completion_move_go e replies k b (idx + 1)

/-! ## The human turn negotiator (src/main.py `get_user_move`, lines 39-52)

Operator input is modelled as a list of lines; `none` means the input list
was exhausted while the loop was still reprompting (the real code would still
be blocked on `input`).  The returned triple is (outcome, reprompt messages
printed in order, unused inputs). -/

/-- Result of `get_user_move`: `sys.exit()` on the quit keyword, or a
resolved move. -/
inductive UserOutcome where
  | quit
  | move (m : Move)
deriving DecidableEq, Repr

/-- The `while True` body of `get_user_move`: check the quit keyword, try
`board.parse_san`, and on each exception class reprompt with its specific
message and consume the next input line.  The structural match on the
remaining input list unrolls the loop. -/
def get_user_move_go {Pos : Type} (e : RulesEngine Pos) (b : Board Pos) :
    List String → String → Option (UserOutcome × List String × List String)
  | [], san =>
    if san = "quit" then some (.quit, [], [])
    else
      match e.parse_san b.pos san with
      | .ok m => some (.move m, [], [])
      | _ => none
  | s :: rest, san =>
    if san = "quit" then some (.quit, [], s :: rest)
    else
      match e.parse_san b.pos san with
      | .ok m => some (.move m, [], s :: rest)
      | .invalidMove =>
        (get_user_move_go e b rest s).map
          (fun r =>
            (r.1, "Not valid standard algebraic chess notation. Try again: "
              :: r.2.1, r.2.2))
      | .illegalMove =>
        (get_user_move_go e b rest s).map
          (fun r => (r.1, "This move is illegal. Try again: " :: r.2.1, r.2.2))
      | .ambiguousMove =>
        (get_user_move_go e b rest s).map
          (fun r =>
            (r.1, "This move is ambiguous. Also state piece to move: "
              :: r.2.1, r.2.2))

/-- src/main.py `get_user_move(board)`: one initial prompt, then the loop. -/
def get_user_move {Pos : Type} (e : RulesEngine Pos) (b : Board Pos)
    (inputs : List String) :
    Option (UserOutcome × List String × List String) :=
  match inputs with
  | [] => none
  | s :: rest => get_user_move_go e b rest s

/-! ## Authentication (src/main.py `authenticate`, lines 96-104) -/

/-- Result of `authenticate()`: proceed, or print the
`AuthenticationError` and `sys.exit()`. -/
inductive AuthOutcome where
  | proceed
  | exitWith (printed : String)
deriving DecidableEq, Repr

/-- src/main.py `authenticate`: `openai.Model.retrieve` either succeeds or
raises `AuthenticationError`, which is printed and ends the process. -/
def authenticate : Except String Unit → AuthOutcome
  | .ok _ => .proceed
  | .error e => .exitWith e

/-! ## The game loop (src/main.py `main`, lines 140-155) -/

/-- The outcome message printed after the loop (src/main.py lines 149-155):
`board.outcome().winner` compared with the user's side. -/
def outcomeMessage (winner : Option Color) (user_side : Color) : String :=
  match winner with
  | none => "It\x27s a draw."
  | some w => if w = user_side then "You won!" else "You lost."

/-- How a run of the game loop ends. `ended` is the normal exit with the
printed outcome message; `quitExit` is `sys.exit()` from `get_user_move`;
`transportFatal` / `indexFatal` are the exceptions propagating out of
`get_ai_move`; `starved` means the scripted operator input ran out while
`get_user_move` was still reprompting; `fuelOut` bounds the unrolling. -/
inductive LoopOutcome (Pos : Type) where
  | ended (b : Board Pos) (message : String)
  | quitExit (b : Board Pos)
  | transportFatal (b : Board Pos)
  | indexFatal (b : Board Pos)
  | starved (b : Board Pos)
  | fuelOut (b : Board Pos)
deriving DecidableEq, Repr

/-- The board state at the moment the run ended. -/
def LoopOutcome.board {Pos : Type} : LoopOutcome Pos → Board Pos
  | .ended b _ => b
  | .quitExit b => b
  | .transportFatal b => b
  | .indexFatal b => b
  | .starved b => b
  | .fuelOut b => b

/-- The `while not board.is_game_over()` loop of src/main.py lines 140-146
plus the outcome printing of lines 148-155, unrolled on fuel.  Each iteration:
AI negotiation, unconditional `board.push(move)` (the null sentinel included),
render, then `board.push(get_user_move(board))` with no game-over check in
between.  Returns the outcome, the transport index, and the unused operator
inputs. -/
def gameLoop {Pos : Type} (e : RulesEngine Pos)
    (replies : Nat → TransportReply) (tries : Nat) (user_side : Color) :
    Nat → Board Pos → Nat → List String →
      LoopOutcome Pos × Nat × List String
  | 0, b, idx, inputs => (.fuelOut b, idx, inputs)
  | fuel + 1, b, idx, inputs =>
    if e.is_game_over b.pos then
      (.ended b (outcomeMessage (e.winner b.pos) user_side), idx, inputs)
    else
      match get_ai_move e b tries replies idx with
      | (b1, .transportRaised, idx2) => (.transportFatal b1, idx2, inputs)
      | (b1, .indexRaised, idx2) => (.indexFatal b1, idx2, inputs)
      | (b1, .returned m _expl, idx2) =>
        let b2 := b1.push e m
        match get_user_move e b2 inputs with
        | none => (.starved b2, idx2, [])
        | some (.quit, _, rem) => (.quitExit b2, idx2, rem)
        | some (.move um, _, rem) =>
          gameLoop e replies tries user_side fuel (b2.push e um) idx2 rem

/-- src/main.py `main` after argument parsing: the starting user move when
the human plays white, then the game loop. -/
def mainGame {Pos : Type} (e : RulesEngine Pos)
    (replies : Nat → TransportReply) (tries : Nat) (user_side : Color)
    (fuel : Nat) (b : Board Pos) (inputs : List String) :
    LoopOutcome Pos × Nat × List String :=
  if user_side = Color.white then
    match get_user_move e b inputs with
    | none => (.starved b, 0, [])
    | some (.quit, _, rem) => (.quitExit b, 0, rem)
    | some (.move m, _, rem) =>
      gameLoop e replies tries user_side fuel (b.push e m) 0 rem
  else gameLoop e replies tries user_side fuel b 0 inputs

/-! ## Concrete instantiations used by witnesses and counterexamples

`TPos` is a miniature position: an identifier plus the side to move.
`push_pos` models what python-chess `Board.push` does to every position,
including for `Move.null()`: the side to move toggles and the position value
changes (clocks and counters advance even for a null move). -/

/-- A concrete position for test engines: an id and the side to move. -/
structure TPos where
  id : Nat
  side : Color
deriving DecidableEq, Repr

/-- A concrete resolved move standing for the SAN token `e5`. -/
def mvE5 : Move := ⟨52, 36, none⟩

/-- A concrete resolved move standing for the SAN token `Nf3`. -/
def mvNf3 : Move := ⟨6, 21, none⟩

/-- Engine on which every SAN token is illegal: the AI negotiator always
exhausts its tries. -/
def toyFailEngine : RulesEngine TPos where
  turn := fun p => p.side
  parse_san := fun _ _ => .illegalMove
  push_pos := fun p _ => ⟨p.id + 1, p.side.flip⟩
  is_game_over := fun _ => false
  winner := fun _ => none
  is_legal := fun _ _ => false

/-- Engine on which exactly the token `Nf3` resolves. -/
def toyNf3Engine : RulesEngine TPos :=
  { toyFailEngine with
    parse_san := fun _ s => if s = "Nf3" then .ok mvNf3 else .illegalMove
    is_legal := fun _ _ => true }

/-- Engine on which exactly the token `e5` resolves (anything else is a
syntax error, as python-chess reports for multi-line text). -/
def toyE5Engine : RulesEngine TPos :=
  { toyFailEngine with
    parse_san := fun _ s => if s = "e5" then .ok mvE5 else .invalidMove
    is_legal := fun _ _ => true }

/-- Engine on which the AI (to move at position id 0) has the resolving reply
`e5`, and the resulting position id 1 is game over with black the winner: a
scripted game in which the AI ply delivers mate. -/
def toyMateEngine : RulesEngine TPos where
  turn := fun p => p.side
  parse_san := fun p s =>
    if p.id == 0 && s == "e5" then .ok mvE5 else .illegalMove
  push_pos := fun p _ => ⟨p.id + 1, p.side.flip⟩
  is_game_over := fun p => p.id != 0
  winner := fun _ => some Color.black
  is_legal := fun _ _ => false

/-- Engine on which `Rd1` is ambiguous and `Rad1` resolves: the
disambiguation scenario of the human negotiator. -/
def toyHumanEngine : RulesEngine TPos :=
  { toyFailEngine with
    parse_san := fun _ s =>
      if s == "Rd1" then .ambiguousMove
      else if s == "Rad1" then .ok mvNf3
      else .invalidMove
    is_legal := fun _ _ => true }

/-- The starting board of the test games: position id 0, black (the AI in
these scripts) to move, empty move stack. -/
def tb0 : Board TPos := ⟨⟨0, Color.black⟩, []⟩

/-! ## Helper lemmas -/

/-- The AI negotiator never mutates the board it negotiates over: the board
threaded through the retry loop comes back unchanged. -/
theorem get_ai_move_go_board {Pos : Type} (e : RulesEngine Pos)
    (replies : Nat → TransportReply) :
    ∀ (k : Nat) (b : Board Pos) (idx : Nat),
      (get_ai_move_go e replies k b idx).1 = b := by
  intro k
  induction k with
  | zero => intro b idx; rfl
  | succ k ih =>
    intro b idx
    simp only [get_ai_move_go]
    cases h : classify e b.pos (replies idx) <;> simp [h, ih]

/-- A run of failing attempts only advances the transport index. -/
theorem get_ai_move_go_skip {Pos : Type} (e : RulesEngine Pos)
    (replies : Nat → TransportReply) (b : Board Pos) :
    ∀ (k j idx : Nat),
      (∀ i, i < k → classify e b.pos (replies (idx + i)) = .failRetry) →
      get_ai_move_go e replies (k + j) b idx
        = get_ai_move_go e replies j b (idx + k) := by
  intro k
  induction k with
  | zero => intro j idx _; simp
  | succ k ih =>
    intro j idx h
    have h0 : classify e b.pos (replies idx) = .failRetry := by
      have := h 0 (Nat.succ_pos k)
      simpa using this
    have hstep : get_ai_move_go e replies (k + 1 + j) b idx
        = get_ai_move_go e replies (k + j) b (idx + 1) := by
      have harr : k + 1 + j = (k + j) + 1 := by omega
      rw [harr]
      simp only [get_ai_move_go, h0]
    rw [hstep, ih j (idx + 1) (fun i hi => by
      have := h (i + 1) (by omega)
      have harg : idx + (i + 1) = idx + 1 + i := by omega
      rwa [harg] at this)]
    congr 1
    omega

/-- The final board of a game-loop run extends the initial move stack: every
mutation of the board goes through `Board.push` in the loop body. -/
theorem gameLoop_stack_extends {Pos : Type} (e : RulesEngine Pos)
    (replies : Nat → TransportReply) (tries : Nat) (user_side : Color) :
    ∀ (fuel : Nat) (b : Board Pos) (idx : Nat) (inputs : List String),
      ∃ l, (((gameLoop e replies tries user_side fuel b idx inputs).1).board).move_stack
        = b.move_stack ++ l := by
  intro fuel
  induction fuel with
  | zero => intro b idx inputs; exact ⟨[], by simp [gameLoop, LoopOutcome.board]⟩
  | succ fuel ih =>
    intro b idx inputs
    cases hover : e.is_game_over b.pos with
    | true =>
      exact ⟨[], by simp [gameLoop, hover, LoopOutcome.board]⟩
    | false =>
      rcases h : get_ai_move e b tries replies idx with ⟨b1, r, idx2⟩
      have hb1 : b1 = b := by
        have hfst := get_ai_move_go_board e replies tries b idx
        have := congrArg Prod.fst h
        simp only [get_ai_move] at this
        rw [hfst] at this
        exact this.symm
      subst hb1
      cases r with
      | transportRaised =>
        exact ⟨[], by simp [gameLoop, hover, h, LoopOutcome.board]⟩
      | indexRaised =>
        exact ⟨[], by simp [gameLoop, hover, h, LoopOutcome.board]⟩
      | returned m expl =>
        cases hu : get_user_move e (b1.push e m) inputs with
        | none =>
          refine ⟨[m], ?_⟩
          simp only [Board.push] at hu
          simp [gameLoop, hover, h, hu, LoopOutcome.board, Board.push]
        | some r2 =>
          rcases r2 with ⟨out, prompts, rem⟩
          cases out with
          | quit =>
            refine ⟨[m], ?_⟩
            simp only [Board.push] at hu
            simp [gameLoop, hover, h, hu, LoopOutcome.board, Board.push]
          | move um =>
            rcases ih ((b1.push e m).push e um) idx2 rem with ⟨l2, hl2⟩
            refine ⟨[m] ++ [um] ++ l2, ?_⟩
            have hgoal : gameLoop e replies tries user_side (fuel + 1) b1 idx inputs
                = gameLoop e replies tries user_side fuel ((b1.push e m).push e um) idx2 rem := by
              simp only [Board.push] at hu
              simp [gameLoop, hover, h, hu, Board.push]
            rw [hgoal, hl2]
            simp [Board.push]

/-- C3: with `max_tries = k ≥ 1`, when the first `k - 1` replies are received
and rejected by the validator (the caught `ValueError` classes) and the k-th
reply resolves, `get_ai_move` returns the k-th move and its explanation having
consumed exactly `k` transport calls; when all `k` replies are rejected it
returns the `Move.null()` sentinel with exactly the message
`AI did not make a valid move.`. -/
theorem ai_negotiator_retry_contract {Pos : Type} (e : RulesEngine Pos)
    (b : Board Pos) (replies : Nat → TransportReply) (idx k : Nat)
    (hk : 1 ≤ k) :
    (∀ m expl,
        (∀ i, i < k - 1 → classify e b.pos (replies (idx + i)) = .failRetry) →
        classify e b.pos (replies (idx + (k - 1))) = .success m expl →
        get_ai_move e b k replies idx = (b, .returned m expl, idx + k))
    ∧ ((∀ i, i < k → classify e b.pos (replies (idx + i)) = .failRetry) →
        get_ai_move e b k replies idx
          = (b, .returned Move.null "AI did not make a valid move.", idx + k)) := by
  constructor
  · intro m expl hfail hsucc
    have hsplit : (k - 1) + 1 = k := by omega
    have h1 : get_ai_move e b k replies idx
        = get_ai_move_go e replies ((k - 1) + 1) b idx := by
      rw [hsplit]; rfl
    rw [h1, get_ai_move_go_skip e replies b (k - 1) 1 idx hfail]
    simp only [get_ai_move_go, hsucc]
    have : idx + (k - 1) + 1 = idx + k := by omega
    rw [this]
  · intro hfail
    have h1 : get_ai_move e b k replies idx
        = get_ai_move_go e replies (k + 0) b idx := by rfl
    rw [h1, get_ai_move_go_skip e replies b k 0 idx hfail]
    rfl

/-- Transport oracle for the C3 witness: the first call is rejected text, all
later calls resolve to `Nf3` with an explanation line. -/
def wRepliesC3 : Nat → TransportReply :=
  fun i => if i == 0 then .ok "junk" else .ok "Nf3\nBest by test."

/-- Witness for C3 on `toyNf3Engine` and `toyFailEngine` with two tries. -/
theorem ai_negotiator_retry_contract_witness :
    get_ai_move toyNf3Engine tb0 2 wRepliesC3 0
      = (tb0, .returned mvNf3 "Best by test.", 2)
    ∧ get_ai_move toyFailEngine tb0 2 wRepliesC3 0
      = (tb0, .returned Move.null "AI did not make a valid move.", 2) := by
  constructor
  · exact (ai_negotiator_retry_contract toyNf3Engine tb0 wRepliesC3 0 2
      (by omega)).1 mvNf3 "Best by test."
      (fun i hi => by
        have h0 : i = 0 := by omega
        subst h0; decide)
      (by decide)
  · exact (ai_negotiator_retry_contract toyFailEngine tb0 wRepliesC3 0 2
      (by omega)).2
      (fun i hi => by
        interval_cases i <;> decide)

/-- C9: the negotiators never mutate the board.  The retry loop of
`get_ai_move` returns the board it was given for every budget, reply oracle
and index; with `max_tries = 0` the sentinel comes back at once with no
transport call; and over a whole game-loop run the board is mutated only by
`Board.push` of negotiator-returned moves, so the final move stack extends
the initial one. -/
theorem negotiators_preserve_state {Pos : Type} (e : RulesEngine Pos)
    (replies : Nat → TransportReply) :
    (∀ (k : Nat) (b : Board Pos) (idx : Nat),
        (get_ai_move_go e replies k b idx).1 = b)
    ∧ (∀ (b : Board Pos) (idx : Nat),
        get_ai_move e b 0 replies idx
          = (b, .returned Move.null "AI did not make a valid move.", idx))
    ∧ (∀ (tries : Nat) (user_side : Color) (fuel : Nat) (b : Board Pos)
          (idx : Nat) (inputs : List String),
        ∃ l, (((gameLoop e replies tries user_side fuel b idx inputs).1).board).move_stack
          = b.move_stack ++ l) :=
  ⟨get_ai_move_go_board e replies,
   fun _ _ => rfl,
   fun tries user_side fuel b idx inputs =>
     gameLoop_stack_extends e replies tries user_side fuel b idx inputs⟩

/-- C10: `--tries` is configured without a type converter, so a supplied
value reaches `get_ai_move` as a string and `range(max_tries)` raises
`TypeError` before any transport call is made; only the built-in integer
default `1` makes the retry loop run. -/
theorem tries_flag_type_mismatch {Pos : Type} (e : RulesEngine Pos)
    (b : Board Pos) (replies : Nat → TransportReply) (idx : Nat) :
    (∀ s, get_ai_move_dyn e b (parseTriesArg (some s)) replies idx = .typeErr)
    ∧ parseTriesArg none = .int 1
    ∧ get_ai_move_dyn e b (parseTriesArg none) replies idx
      = .ok (get_ai_move e b 1 replies idx) :=
  ⟨fun _ => rfl, rfl, rfl⟩

/-- C1 counterexample: a concrete loop iteration in which the AI abstains.
The controller pushes the returned `Move.null()` unconditionally, so after
the AI turn the move stack has grown by the null move and the side to move
has flipped — the claim's "move stack and side to move are unchanged" is
false.  (The human is then prompted and quits, ending the run.) -/
theorem abstained_turn_mutates_state :
    gameLoop toyFailEngine (fun _ => TransportReply.ok "e4") 1 Color.white 5
        tb0 0 ["quit"]
      = (.quitExit ⟨⟨1, Color.white⟩, [Move.null]⟩, 1, [])
    ∧ toyFailEngine.turn ⟨1, Color.white⟩ ≠ toyFailEngine.turn tb0.pos
    ∧ ([Move.null] : List Move) ≠ tb0.move_stack := by
  decide

/-- C1 amended: when the AI negotiator abstains in a loop iteration, the
controller pushes the `Move.null()` sentinel — the move stack gains the null
move and the position is advanced by the engine's push (which flips the side
to move) — the loop does not crash, and it proceeds to the human's turn on
the pushed board. -/
theorem abstained_turn_pushes_null {Pos : Type} (e : RulesEngine Pos)
    (b : Board Pos) (replies : Nat → TransportReply)
    (tries fuel idx idx2 : Nat) (user_side : Color)
    (inputs rem prompts : List String) (expl : String) (m : Move)
    (hover : e.is_game_over b.pos = false)
    (hai : get_ai_move e b tries replies idx
      = (b, .returned Move.null expl, idx2))
    (huser : get_user_move e (b.push e Move.null) inputs
      = some (.move m, prompts, rem)) :
    gameLoop e replies tries user_side (fuel + 1) b idx inputs
      = gameLoop e replies tries user_side fuel
          ((b.push e Move.null).push e m) idx2 rem
    ∧ (b.push e Move.null).move_stack = b.move_stack ++ [Move.null] := by
  constructor
  · simp only [Board.push] at huser
    simp [gameLoop, hover, hai, huser, Board.push]
  · simp [Board.push]

/-- Witness for the amended C1: on `toyNf3Engine` the AI reply `zz` fails its
single try, the null sentinel is pushed, and the human's `Nf3` is negotiated
on the pushed board. -/
theorem abstained_turn_pushes_null_witness :
    gameLoop toyNf3Engine (fun _ => TransportReply.ok "zz") 1 Color.white 4
        tb0 0 ["Nf3"]
      = gameLoop toyNf3Engine (fun _ => TransportReply.ok "zz") 1 Color.white 3
          ((tb0.push toyNf3Engine Move.null).push toyNf3Engine mvNf3) 1 []
    ∧ (tb0.push toyNf3Engine Move.null).move_stack
      = tb0.move_stack ++ [Move.null] :=
  abstained_turn_pushes_null toyNf3Engine tb0 (fun _ => TransportReply.ok "zz")
    1 3 0 1 Color.white ["Nf3"] [] [] "AI did not make a valid move." mvNf3
    (by decide) (by decide) (by decide)

/-- C2 counterexample: the game-over condition is checked only at the top of
the loop, before the AI turn.  On `toyMateEngine` the AI ply ends the game,
yet the loop still runs the human negotiator (it consumes the scripted input
`a4`, reprompts, and starves) instead of terminating — refuting "after every
applied ply the game-over condition is consulted before the next side's
negotiator runs" and "terminates without prompting either side again". -/
theorem ai_mate_still_prompts_human :
    gameLoop toyMateEngine (fun _ => TransportReply.ok "e5") 1 Color.white 5
        tb0 0 ["a4"]
      = (.starved ⟨⟨1, Color.white⟩, [mvE5]⟩, 1, [])
    ∧ toyMateEngine.is_game_over ⟨1, Color.white⟩ = true := by
  decide

/-- C2 amended: the loop consults the game-over condition before each AI
turn; when the rules engine reports the game over at the top of the loop, the
run terminates at once, running neither negotiator (transport index and
operator inputs are untouched), and the reported outcome is the draw message
when there is no winner, the winning message when the winner equals the
human's side, and the losing message otherwise.  (After an AI ply the human
negotiator runs without such a check, see the counterexample.) -/
theorem loop_ends_when_game_over {Pos : Type} (e : RulesEngine Pos)
    (b : Board Pos) (replies : Nat → TransportReply)
    (tries fuel idx : Nat) (user_side : Color) (inputs : List String)
    (hover : e.is_game_over b.pos = true) :
    gameLoop e replies tries user_side (fuel + 1) b idx inputs
      = (.ended b (outcomeMessage (e.winner b.pos) user_side), idx, inputs)
    ∧ outcomeMessage none user_side = "It\x27s a draw."
    ∧ outcomeMessage (some user_side) user_side = "You won!"
    ∧ (∀ w, w ≠ user_side → outcomeMessage (some w) user_side = "You lost.") := by
  refine ⟨by simp [gameLoop, hover], rfl, by simp [outcomeMessage], ?_⟩
  intro w hw
  simp [outcomeMessage, hw]

/-- Witness for the amended C2: at the mated position of `toyMateEngine`
(winner black, human white) the loop ends immediately with `You lost.` and
consumes nothing. -/
theorem loop_ends_when_game_over_witness :
    gameLoop toyMateEngine (fun _ => TransportReply.ok "e5") 1 Color.white 1
        ⟨⟨1, Color.white⟩, [mvE5]⟩ 0 []
      = (.ended ⟨⟨1, Color.white⟩, [mvE5]⟩ "You lost.", 0, [])
    ∧ toyMateEngine.is_game_over ⟨1, Color.white⟩ = true := by
  constructor
  · have h := (loop_ends_when_game_over toyMateEngine
      ⟨⟨1, Color.white⟩, [mvE5]⟩ (fun _ => TransportReply.ok "e5") 1 0 0
      Color.white [] (by decide)).1
    rw [h]
    rfl
  · decide

/-- C4 (code defect): src/chessGPT.py line 100 reads
`next(re.finditer(SAN_PATTERN, reply)).string`, and `Match.string` is the
whole subject text, not the matched substring.  On the reply
`e5\nGood central response.` the first match is `e5`, yet the token handed to
the validator is the entire two-line reply; consequently on an engine where
only the bare token `e5` parses, every try fails and the negotiator falls
through to the `Move.null()` sentinel. -/
theorem extractor_returns_whole_reply :
    extractToken "e5\nGood central response."
      = some "e5\nGood central response."
    ∧ sanFirstMatch "e5\nGood central response." = some "e5"
    ∧ ("e5\nGood central response." : String) ≠ "e5"
    ∧ get_completion_move_go toyE5Engine
        (fun _ => "e5\nGood central response.") 3 tb0 0
      = (tb0, Move.null, 3) := by
  decide

/-- C5 counterexample: the trailing result annotation is written inside
`SAN_PATTERN`, so the matched token for `e4 1-0` is the whole `e4 1-0`
(whitespace and annotation included), not the bare move `e4` — refuting
"without treating that annotation as part of the extracted move token". -/
theorem san_match_includes_result_annot :
    sanFirstMatch "e4 1-0" = some "e4 1-0" ∧ ("e4 1-0" : String) ≠ "e4" := by
  decide

/-- C5 amended: the pattern accepts castling (letter O, lowercase o and zero
variants), ordinary SAN moves (optional piece letter, optional disambiguating
file or rank, optional capture x, destination square, optional promotion,
optional check or mate suffix), and accepts a trailing whitespace-plus-result
annotation — but that annotation, when present, is part of the matched
token. -/
theorem san_grammar_coverage :
    sanFirstMatch "O-O" = some "O-O"
    ∧ sanFirstMatch "O-O-O" = some "O-O-O"
    ∧ sanFirstMatch "o-o" = some "o-o"
    ∧ sanFirstMatch "0-0-0" = some "0-0-0"
    ∧ sanFirstMatch "e4" = some "e4"
    ∧ sanFirstMatch "Nf3" = some "Nf3"
    ∧ sanFirstMatch "exd5" = some "exd5"
    ∧ sanFirstMatch "Rae1" = some "Rae1"
    ∧ sanFirstMatch "R1e2" = some "R1e2"
    ∧ sanFirstMatch "e8=Q+" = some "e8=Q+"
    ∧ sanFirstMatch "Qxf7#" = some "Qxf7#"
    ∧ sanFirstMatch "e4 1-0" = some "e4 1-0"
    ∧ sanFirstMatch "Rxd8 1/2-1/2" = some "Rxd8 1/2-1/2"
    ∧ sanFirstMatch "Kb1 0-1" = some "Kb1 0-1"
    ∧ sanFirstMatch "hello" = none := by
  decide

/-- C6: on a successful AI turn the explanation returned with the move is the
reply minus its first line and minus all blank lines; in particular, on the
reply `e5\nGood central response.` a one-try negotiation returns the resolved
move together with exactly `Good central response.`. -/
theorem ai_explanation_extraction {Pos : Type} (e : RulesEngine Pos)
    (b : Board Pos) (m : Move) (idx : Nat)
    (h : e.parse_san b.pos "e5" = .ok m) :
    get_ai_move e b 1 (fun _ => .ok "e5\nGood central response.") idx
      = (b, .returned m "Good central response.", idx + 1)
    ∧ (∀ r san expl, processReply r = some (san, expl) →
        san = (splitlines r).headD ""
        ∧ expl = String.intercalate "\n"
            (((splitlines r).drop 1).filter (fun l => l != ""))) := by
  constructor
  · have hp : processReply "e5\nGood central response."
        = some ("e5", "Good central response.") := by rfl
    simp [get_ai_move, get_ai_move_go, classify, hp, h]
  · intro r san expl h2
    unfold processReply at h2
    cases hs : splitlines r with
    | nil => rw [hs] at h2; exact absurd h2 (by simp)
    | cons first rest =>
      rw [hs] at h2
      simp only [Option.some.injEq, Prod.mk.injEq] at h2
      obtain ⟨h3, h4⟩ := h2
      subst h3
      subst h4
      exact ⟨by simp [hs], by simp [hs]⟩

/-- Witness for C6: on `toyE5Engine` the single-try negotiation resolves
`e5` and returns exactly the second line as the explanation. -/
theorem ai_explanation_extraction_witness :
    get_ai_move toyE5Engine tb0 1
        (fun _ => .ok "e5\nGood central response.") 0
      = (tb0, .returned mvE5 "Good central response.", 0 + 1) :=
  (ai_explanation_extraction toyE5Engine tb0 mvE5 0 (by decide)).1

/-- Soundness of the human-negotiation loop: whenever it returns, the result
is either the quit exit or a move the engine parsed (hence, under the
engine's contract, a legal one). -/
theorem get_user_move_go_sound {Pos : Type} (e : RulesEngine Pos)
    (b : Board Pos)
    (hlaw : ∀ s m, e.parse_san b.pos s = .ok m → e.is_legal b.pos m = true) :
    ∀ (inputs : List String) (san : String) (out : UserOutcome)
      (prompts rem : List String),
      get_user_move_go e b inputs san = some (out, prompts, rem) →
      out = .quit ∨ ∃ m, out = .move m ∧ e.is_legal b.pos m = true := by
  intro inputs
  induction inputs with
  | nil =>
    intro san out prompts rem hgo
    unfold get_user_move_go at hgo
    by_cases hq : san = "quit"
    · rw [if_pos hq] at hgo
      simp only [Option.some.injEq, Prod.mk.injEq] at hgo
      exact Or.inl hgo.1.symm
    · rw [if_neg hq] at hgo
      cases hp : e.parse_san b.pos san with
      | ok m =>
        rw [hp] at hgo
        simp only [Option.some.injEq, Prod.mk.injEq] at hgo
        exact Or.inr ⟨m, hgo.1.symm, hlaw san m hp⟩
      | invalidMove => rw [hp] at hgo; exact absurd hgo (by simp)
      | illegalMove => rw [hp] at hgo; exact absurd hgo (by simp)
      | ambiguousMove => rw [hp] at hgo; exact absurd hgo (by simp)
  | cons s rest ih =>
    intro san out prompts rem hgo
    unfold get_user_move_go at hgo
    by_cases hq : san = "quit"
    · rw [if_pos hq] at hgo
      simp only [Option.some.injEq, Prod.mk.injEq] at hgo
      exact Or.inl hgo.1.symm
    · rw [if_neg hq] at hgo
      cases hp : e.parse_san b.pos san with
      | ok m =>
        rw [hp] at hgo
        simp only [Option.some.injEq, Prod.mk.injEq] at hgo
        exact Or.inr ⟨m, hgo.1.symm, hlaw san m hp⟩
      | invalidMove =>
        rw [hp] at hgo
        rcases Option.map_eq_some'.mp hgo with ⟨⟨o2, p2, r2⟩, hgo2, hf⟩
        simp only [Prod.mk.injEq] at hf
        obtain ⟨h1, _, _⟩ := hf
        subst h1
        exact ih s o2 p2 r2 hgo2
      | illegalMove =>
        rw [hp] at hgo
        rcases Option.map_eq_some'.mp hgo with ⟨⟨o2, p2, r2⟩, hgo2, hf⟩
        simp only [Prod.mk.injEq] at hf
        obtain ⟨h1, _, _⟩ := hf
        subst h1
        exact ih s o2 p2 r2 hgo2
      | ambiguousMove =>
        rw [hp] at hgo
        rcases Option.map_eq_some'.mp hgo with ⟨⟨o2, p2, r2⟩, hgo2, hf⟩
        simp only [Prod.mk.injEq] at hf
        obtain ⟨h1, _, _⟩ := hf
        subst h1
        exact ih s o2 p2 r2 hgo2

/-- C7: the human negotiator only ever returns a legal move or the quit exit
(the quit keyword is honoured at every prompt, the first included), and each
failure class reprompts with its own message — a syntax message for
`InvalidMoveError`, an illegal message for `IllegalMoveError`, a
specify-the-piece message for `AmbiguousMoveError` — after which a valid
input yields the resolved move. -/
theorem human_negotiator_contract {Pos : Type} (e : RulesEngine Pos)
    (b : Board Pos)
    (hlaw : ∀ s m, e.parse_san b.pos s = .ok m → e.is_legal b.pos m = true) :
    (∀ (inputs : List String) (out : UserOutcome) (prompts rem : List String),
        get_user_move e b inputs = some (out, prompts, rem) →
        out = .quit ∨ ∃ m, out = .move m ∧ e.is_legal b.pos m = true)
    ∧ (∀ rest, get_user_move e b ("quit" :: rest) = some (.quit, [], rest))
    ∧ (∀ s1 s2 m, s1 ≠ "quit" → s2 ≠ "quit" →
        e.parse_san b.pos s1 = .invalidMove → e.parse_san b.pos s2 = .ok m →
        get_user_move e b [s1, s2]
          = some (.move m,
              ["Not valid standard algebraic chess notation. Try again: "], []))
    ∧ (∀ s1 s2 m, s1 ≠ "quit" → s2 ≠ "quit" →
        e.parse_san b.pos s1 = .illegalMove → e.parse_san b.pos s2 = .ok m →
        get_user_move e b [s1, s2]
          = some (.move m, ["This move is illegal. Try again: "], []))
    ∧ (∀ s1 s2 m, s1 ≠ "quit" → s2 ≠ "quit" →
        e.parse_san b.pos s1 = .ambiguousMove → e.parse_san b.pos s2 = .ok m →
        get_user_move e b [s1, s2]
          = some (.move m,
              ["This move is ambiguous. Also state piece to move: "], [])) := by
  refine ⟨?_, ?_, ?_, ?_, ?_⟩
  · intro inputs out prompts rem hu
    unfold get_user_move at hu
    cases inputs with
    | nil => exact absurd hu (by simp)
    | cons s rest => exact get_user_move_go_sound e b hlaw rest s out prompts rem hu
  · intro rest
    cases rest <;> simp [get_user_move, get_user_move_go]
  · intro s1 s2 m hq1 hq2 hp1 hp2
    simp [get_user_move, get_user_move_go, hq1, hq2, hp1, hp2]
  · intro s1 s2 m hq1 hq2 hp1 hp2
    simp [get_user_move, get_user_move_go, hq1, hq2, hp1, hp2]
  · intro s1 s2 m hq1 hq2 hp1 hp2
    simp [get_user_move, get_user_move_go, hq1, hq2, hp1, hp2]

/-- Witness for C7: on `toyHumanEngine`, `Rd1` is ambiguous so the negotiator
reprompts with the specify-the-piece message and the subsequent `Rad1` yields
the resolved move. -/
theorem human_negotiator_contract_witness :
    get_user_move toyHumanEngine tb0 ["Rd1", "Rad1"]
      = some (.move mvNf3,
          ["This move is ambiguous. Also state piece to move: "], []) :=
  (human_negotiator_contract toyHumanEngine tb0
      (fun _ _ _ => rfl)).2.2.2.2 "Rd1" "Rad1" mvNf3
    (by decide) (by decide) (by decide) (by decide)

/-- Every attempt of a budget whose replies are all received and classified
(never a transport error, never an empty reply) ends in a normal return. -/
theorem get_ai_move_go_total {Pos : Type} (e : RulesEngine Pos)
    (replies : Nat → TransportReply) (b : Board Pos) :
    ∀ (k idx : Nat),
      (∀ i, i < k → classify e b.pos (replies (idx + i)) ≠ .fatalTransport
        ∧ classify e b.pos (replies (idx + i)) ≠ .fatalIndex) →
      ∃ m expl idx2,
        get_ai_move_go e replies k b idx = (b, .returned m expl, idx2) := by
  intro k
  induction k with
  | zero =>
    intro idx _
    exact ⟨Move.null, "AI did not make a valid move.", idx, rfl⟩
  | succ k ih =>
    intro idx h
    have h0 := h 0 (Nat.succ_pos k)
    simp only [Nat.add_zero] at h0
    cases hc : classify e b.pos (replies idx) with
    | fatalTransport => exact absurd hc h0.1
    | fatalIndex => exact absurd hc h0.2
    | success m expl => exact ⟨m, expl, idx + 1, by simp [get_ai_move_go, hc]⟩
    | failRetry =>
      rcases ih (idx + 1) (fun i hi => by
        have := h (i + 1) (by omega)
        have harg : idx + (i + 1) = idx + 1 + i := by omega
        rwa [harg] at this) with ⟨m, expl, idx2, hgo⟩
      exact ⟨m, expl, idx2, by simp [get_ai_move_go, hc, hgo]⟩

/-- C8: the caught classes (no match, invalid syntax, illegal, ambiguous,
and the abstain outcome) are handled inside the negotiators — a budget of
received, classified replies always ends in a normal return — while a
transport failure at attempt `j` is never retried: the negotiation stops
after exactly `j + 1` transport calls even though budget remains, the error
propagates out of `get_ai_move`, ends the game-loop run fatally, and an
authentication failure at startup exits with the printed error. -/
theorem transport_error_policy {Pos : Type} (e : RulesEngine Pos)
    (b : Board Pos) (replies : Nat → TransportReply)
    (idx j k fuel tries : Nat) (user_side : Color) (inputs : List String) :
    ((∀ i, i < j → classify e b.pos (replies (idx + i)) = .failRetry) →
      classify e b.pos (replies (idx + j)) = .fatalTransport →
      j < k →
      get_ai_move e b k replies idx = (b, .transportRaised, idx + j + 1))
    ∧ ((∀ i, i < k → classify e b.pos (replies (idx + i)) ≠ .fatalTransport
          ∧ classify e b.pos (replies (idx + i)) ≠ .fatalIndex) →
        ∃ m expl idx2,
          get_ai_move e b k replies idx = (b, .returned m expl, idx2))
    ∧ (e.is_game_over b.pos = false →
        get_ai_move e b tries replies idx = (b, .transportRaised, idx + j + 1) →
        gameLoop e replies tries user_side (fuel + 1) b idx inputs
          = (.transportFatal b, idx + j + 1, inputs))
    ∧ (∀ msg, authenticate (.error msg) = .exitWith msg) := by
  refine ⟨?_, ?_, ?_, fun _ => rfl⟩
  · intro hfail htrans hjk
    have hsplit : j + ((k - j - 1) + 1) = k := by omega
    have h1 : get_ai_move e b k replies idx
        = get_ai_move_go e replies (j + ((k - j - 1) + 1)) b idx := by
      rw [hsplit]; rfl
    rw [h1, get_ai_move_go_skip e replies b j ((k - j - 1) + 1) idx hfail]
    simp only [get_ai_move_go, htrans]
  · exact get_ai_move_go_total e replies b k idx
  · intro hover hai
    simp [gameLoop, hover, hai]

/-- Transport oracle for the C8 witness: the first call raises, later calls
would have succeeded. -/
def wRepliesC8 : Nat → TransportReply :=
  fun i => if i == 0 then .err else .ok "Nf3"

/-- Witness for C8: with a budget of three tries and a transport failure on
the first call, `get_ai_move` stops after that single call and propagates. -/
theorem transport_error_policy_witness :
    get_ai_move toyFailEngine tb0 3 wRepliesC8 0
      = (tb0, .transportRaised, 1) := by
  have h := (transport_error_policy toyFailEngine tb0 wRepliesC8 0 0 3 0 0
      Color.white []).1
    (fun i hi => absurd hi (Nat.not_lt_zero i)) (by decide) (by omega)
  simpa using h

end ChessGPT
